import Mathlib

/-!
Verification of the pipeline-tools CD manager core: the smoke-test job's
`Advance` step function (`cd/manager/jobs/smoke.go`) and the Discord
notification helpers (`cd/manager/notifs/discord.go`), embedded shallowly.

Times are modelled as `Int` nanoseconds (Go `time.Time`/`time.Duration`
both reduce to int64 nanoseconds for the arithmetic used here).  Go panics
(out-of-range string slices, failing interface type assertions) are
modelled by `Option`, with `none` meaning the code panics.
-/

namespace PipelineTools

/-- Job lifecycle stages (`job.JobStage` string constants in Go). -/
inductive JobStage
  | Queued
  | Skipped
  | Dequeued
  | Started
  | Waiting
  | Delayed
  | Failed
  | Canceled
  | Completed
deriving DecidableEq, Repr

/-- Job types (`manager.JobType`). -/
inductive JobType
  | Deploy
  | Anchor
  | TestE2E
  | TestSmoke
deriving DecidableEq, Repr

/-- Go `error` values that flow through the smoke-test job: the two locally
synthesized timeout errors (`manager.Error_StartupTimeout`,
`manager.Error_CompletionTimeout`), the defensive unexpected-state error, and
opaque errors returned by external calls (modelled by their message). -/
inductive GoError
  | startupTimeout
  | completionTimeout
  | unexpectedState
  | external (msg : String)
deriving DecidableEq, Repr

/-- Values stored in the `Params` bag (a Go map from string to empty-interface
values — a heterogeneous map accessed through type assertions). -/
inductive ParamVal
  | str (s : String)
  | int (n : Int)
  | bool (b : Bool)
  | err (e : GoError)
deriving DecidableEq, Repr

/-- Go `job.JobState`: id, type, stage, last-transition timestamp, params. -/
structure JobState where
  id : String
  type : JobType
  stage : JobStage
  ts : Int
  params : List (String × ParamVal)
deriving DecidableEq, Repr

/-- Lookup in the `Params` map. -/
def paramsGet : List (String × ParamVal) → String → Option ParamVal
  | [], _ => none
  | (k, v) :: rest, key => if k = key then some v else paramsGet rest key

/-- Go map assignment `params[key] = v` (replace or append). -/
def paramsSet : List (String × ParamVal) → String → ParamVal → List (String × ParamVal)
  | [], key, v => [(key, v)]
  | (k, w) :: rest, key, v =>
      if k = key then (k, v) :: rest else (k, w) :: paramsSet rest key v

/-- Go type assertion `params[key].(string)`: `none` models the panic when the
key is absent or the value is not a string. -/
def paramsGetString (ps : List (String × ParamVal)) (key : String) : Option String :=
  match paramsGet ps key with
  | some (ParamVal.str s) => some s
  | _ => none

/-- Key `job.JobParam_Id` (key names live in `common/job`, outside src; the exact
strings are immaterial, only their distinctness matters). -/
def JobParam_Id : String := "id"

/-- Key `job.JobParam_Start`. -/
def JobParam_Start : String := "start"

/-- Modelled from the spec: the transition primitive records a present error in
"an error-description field inside Params"; this is its key. -/
def JobParam_Error : String := "error"

/-- Key `job.JobParam_Sha`. -/
def JobParam_Sha : String := "sha"

/-- Key `job.JobParam_Component`. -/
def JobParam_Component : String := "component"

/-- Constant `smokeTestFailureTime = 15 * time.Minute`, in nanoseconds. -/
def smokeTestFailureTime : Int := 15 * 60 * 1000000000

/-- Modelled from the spec: `job.IsTimedOut` lives in `common/job`, outside
src.  Spec §4.3: `IsTimedOut(state, threshold) = (now - state.Ts) > threshold`,
with the wall-clock `now` made an explicit argument. -/
def IsTimedOut (state : JobState) (threshold : Int) (now : Int) : Bool :=
  decide (now - state.ts > threshold)

/-- Modelled from the spec: `baseJob.advance`, the shared transition primitive,
lives outside src.  Spec §4.2: it copies the input state, overwrites Stage and
Ts, records a present error in an error field inside Params, and returns the
new state; the synchronous database write and the notification forwarding are
side effects with no bearing on the returned value (fail-open, §7) and are not
modelled. -/
def advanceStep (state : JobState) (stage : JobStage) (ts : Int) (err : Option GoError) :
    JobState × Option GoError :=
  match err with
  | some e =>
      ({ state with
          stage := stage
          ts := ts
          params := paramsSet state.params JobParam_Error (ParamVal.err e) }, some e)
  | none => ({ state with stage := stage, ts := ts }, none)

/-- The external inputs consumed by one `smokeTestJob.Advance` invocation:
`now` is the `time.Now()` read at the top, `startNano` the later
`time.Now().UnixNano()` read in the Dequeued branch, `launchResult` the
outcome of `d.LaunchTask`, and `checkResult` the outcome of `d.CheckTask`. -/
structure AdvanceEnv where
  now : Int
  startNano : Int
  launchResult : Except GoError String
  checkResult : Except GoError Bool

/-- Function `smokeTestJob.checkTests`: reads the spawned-task id out of Params via a
type assertion (panic modelled by `none`), consults `CheckTask`, and on a
non-match synthesizes the appropriate timeout error if the stage has been
outstanding too long.  `defaultWaitTime` stands for `manager.DefaultWaitTime`
(defined outside src), passed explicitly. -/
def checkTests (state : JobState) (checkResult : Except GoError Bool)
    (expectedToBeRunning : Bool) (defaultWaitTime : Int) (now : Int) :
    Option (Bool × Option GoError) :=
  match paramsGetString state.params JobParam_Id with
  | none => none
  | some _ =>
    match checkResult with
    | Except.error e => some (false, some e)
    | Except.ok status =>
      if status then some (true, none)
      else if expectedToBeRunning && IsTimedOut state defaultWaitTime now then
        some (false, some GoError.startupTimeout)
      else if !expectedToBeRunning && IsTimedOut state smokeTestFailureTime now then
        some (false, some GoError.completionTimeout)
      else some (false, none)

/-- Function `smokeTestJob.Advance`: dispatch on the current stage.  `none` models a
panic inside the invocation (failing type assertion in `checkTests`). -/
def Advance (defaultWaitTime : Int) (env : AdvanceEnv) (state : JobState) :
    Option (JobState × Option GoError) :=
  let now := env.now
  match state.stage with
  | JobStage.Queued =>
      -- Ts deliberately not updated: pass the state's own Ts.
      some (advanceStep state JobStage.Dequeued state.ts none)
  | JobStage.Dequeued =>
      match env.launchResult with
      | Except.error e => some (advanceStep state JobStage.Failed now (some e))
      | Except.ok id =>
          let state' :=
            { state with
                params := paramsSet
                  (paramsSet state.params JobParam_Id (ParamVal.str id))
                  JobParam_Start (ParamVal.int env.startNano) }
          some (advanceStep state' JobStage.Started now none)
  | JobStage.Started =>
      match checkTests state env.checkResult true defaultWaitTime now with
      | none => none
      | some (_, some e) => some (advanceStep state JobStage.Failed now (some e))
      | some (true, none) => some (advanceStep state JobStage.Waiting now none)
      | some (false, none) => some (state, none)
  | JobStage.Waiting =>
      match checkTests state env.checkResult false defaultWaitTime now with
      | none => none
      | some (_, some e) => some (advanceStep state JobStage.Failed now (some e))
      | some (true, none) => some (advanceStep state JobStage.Completed now none)
      | some (false, none) => some (state, none)
  | _ => some (advanceStep state JobStage.Failed now (some GoError.unexpectedState))

/-! Notification layer (`cd/manager/notifs/discord.go`). -/

/-- Returns `true` on the three stages the spec calls terminal. -/
def terminalStage : JobStage → Bool
  | JobStage.Failed => true
  | JobStage.Canceled => true
  | JobStage.Completed => true
  | _ => false

/-- Modelled from the spec: `manager.IsActiveJob` lives outside src; §4.4 gives
the matcher shape "Stage is non-terminal". -/
def IsActiveJob (js : JobState) : Bool :=
  !terminalStage js.stage

/-- Modelled from the spec: `Cache.JobsByMatcher` lives outside src; §4.4:
"returns exactly the set of registered jobs satisfying the predicate", the
registry being an in-memory snapshot keyed by Id (so the caller-supplied
registry list carries no duplicate Ids). -/
def JobsByMatcher (registry : List JobState) (p : JobState → Bool) : List JobState :=
  registry.filter p

/-- Rendering of a stage inside the active-jobs message (Go stages are string
constants; the exact text is immaterial here). -/
def stageText : JobStage → String
  | JobStage.Queued => "queued"
  | JobStage.Skipped => "skipped"
  | JobStage.Dequeued => "dequeued"
  | JobStage.Started => "started"
  | JobStage.Waiting => "waiting"
  | JobStage.Delayed => "delayed"
  | JobStage.Failed => "failed"
  | JobStage.Canceled => "canceled"
  | JobStage.Completed => "completed"

/-- Modelled from the spec: `manager.NotifField` (the embed field title per job
type) lives outside src; the exact names are immaterial. -/
def notifFieldName : JobType → String
  | JobType.Deploy => "Deployment"
  | JobType.Anchor => "Anchor Worker"
  | JobType.TestE2E => "E2E Tests"
  | JobType.TestSmoke => "Smoke Tests"

/-- The line `fmt.Sprintf("%s (%s)\n", activeJob.Id, activeJob.Stage)` printed
for one active job. -/
def activeJobLine (js : JobState) : String :=
  js.id ++ " (" ++ stageText js.stage ++ ")\n"

/-- The jobs whose lines make up the message of `getActiveJobsByType`: the
matcher-selected jobs minus the job the notification is about. -/
def activeJobsListed (registry : List JobState) (self : JobState) (t : JobType) :
    List JobState :=
  (JobsByMatcher registry (fun js => IsActiveJob js && js.type == t)).filter
    (fun js => js.id != self.id)

/-- Function `JobNotifs.getActiveJobsByType`: queries the registry for active jobs of
one type, accumulates one line per job other than `self`, and returns the
embed field (name, message) plus the found flag `len(message) > 0`. -/
def getActiveJobsByType (registry : List JobState) (self : JobState) (t : JobType) :
    (String × String) × Bool :=
  let activeJobs := JobsByMatcher registry (fun js => IsActiveJob js && js.type == t)
  let message := activeJobs.foldl
    (fun m aj => if aj.id != self.id then m ++ activeJobLine aj else m) ""
  ((notifFieldName t ++ ":", message), decide (message.length > 0))

/-- Go `manager.DeployComponent` is a string type; the component constants live
outside src and only their distinctness matters. -/
def DeployComponent_Ceramic : String := "ceramic"

/-- Component constant for the CAS. -/
def DeployComponent_Cas : String := "cas"

/-- Component constant for IPFS. -/
def DeployComponent_Ipfs : String := "ipfs"

/-- Modelled from the spec: `manager.ComponentRepo` (component to GitHub repo
name) lives outside src; the exact names are immaterial. -/
def componentRepo (c : String) : String :=
  if c = DeployComponent_Ceramic then "js-ceramic"
  else if c = DeployComponent_Cas then "ceramic-anchor-service"
  else "go-ipfs-daemon"

/-- Modelled from the spec: `manager.GitHubOrg` lives outside src. -/
def gitHubOrg : String := "ceramicnetwork"

/-- Function `JobNotifs.getComponentMsg`: builds the markdown hyperlink whose label
slices the commit hash as `sha[:12]`.  The Go slice panics when the hash has
fewer than 12 bytes; `none` models that panic. -/
def getComponentMsg (component : String) (sha : String) : Option String :=
  if 12 ≤ sha.length then
    some ("[" ++ componentRepo component ++ " (" ++ sha.take 12 ++
      ")](https://github.com/" ++ gitHubOrg ++ "/" ++ componentRepo component ++
      "/commit/" ++ sha ++ ")")
  else none

/-- Function `JobNotifs.getDeployHashes`: on a database error returns the empty string;
otherwise, for deploy jobs whose `sha` param passes the commit-hash regex
(`isValidSha` stands for the `manager.CommitHashRegex` match, defined outside
src), overwrites that component's hash, then renders the three component
messages.  The hash map is a Go string map, modelled as a total function with
absent keys reading as the empty string; `none` models a panic (failed type
assertion or the short-hash slice panic inside `getComponentMsg`). -/
def getDeployHashes (isValidSha : String → Bool)
    (dbResult : Except GoError (String → String)) (jobState : JobState) :
    Option String :=
  match dbResult with
  | Except.error _ => some ""
  | Except.ok commitHashes =>
    let updated :=
      if jobState.type = JobType.Deploy then
        match paramsGetString jobState.params JobParam_Sha with
        | none => none
        | some sha =>
          if isValidSha sha then
            match paramsGetString jobState.params JobParam_Component with
            | none => none
            | some comp => some (fun c => if c = comp then sha else commitHashes c)
          else some commitHashes
      else some commitHashes
    match updated with
    | none => none
    | some h =>
      match getComponentMsg DeployComponent_Ceramic (h DeployComponent_Ceramic),
            getComponentMsg DeployComponent_Cas (h DeployComponent_Cas),
            getComponentMsg DeployComponent_Ipfs (h DeployComponent_Ipfs) with
      | some m1, some m2, some m3 => some (m1 ++ "\n" ++ m2 ++ "\n" ++ m3)
      | _, _, _ => none

/-- Concatenation of the per-job lines of an active-jobs message. -/
def linesMsg : List JobState → String
  | [] => ""
  | a :: rest => activeJobLine a ++ linesMsg rest

/-! Helper lemmas. -/

theorem paramsGet_paramsSet_self (ps : List (String × ParamVal)) (k : String) (v : ParamVal) :
    paramsGet (paramsSet ps k v) k = some v := by
  induction ps with
  | nil => simp [paramsSet, paramsGet]
  | cons hd tl ih =>
      obtain ⟨k0, w⟩ := hd
      by_cases h : k0 = k <;> simp [paramsSet, paramsGet, h, ih]

theorem paramsGet_paramsSet_ne (ps : List (String × ParamVal)) (k k' : String) (v : ParamVal)
    (h : k ≠ k') : paramsGet (paramsSet ps k' v) k = paramsGet ps k := by
  induction ps with
  | nil => simp [paramsSet, paramsGet, Ne.symm h]
  | cons hd tl ih =>
      obtain ⟨k0, w⟩ := hd
      by_cases h0 : k0 = k' <;> simp [paramsSet, paramsGet, h0, ih, Ne.symm h]

theorem foldl_lines_eq (p : JobState → Bool) :
    ∀ (l : List JobState) (m : String),
      l.foldl (fun acc aj => if p aj then acc ++ activeJobLine aj else acc) m =
        m ++ linesMsg (l.filter p)
  | [], m => by simp [linesMsg, String.append_empty]
  | a :: rest, m => by
      by_cases hp : p a
      · simp [List.foldl_cons, hp, List.filter_cons_of_pos hp, linesMsg,
          foldl_lines_eq p rest (m ++ activeJobLine a), String.append_assoc]
      · simp [List.foldl_cons, hp, List.filter_cons_of_neg hp,
          foldl_lines_eq p rest m]

/-! Claim theorems. -/

/-- C1 (counterexample): a Completed job is not left unchanged by `Advance`:
the returned state has Stage Failed, a new Ts, and a recorded unexpected-state
error, so "the returned JobState has the same Stage (and the state is
otherwise unchanged)" fails at this input. -/
theorem terminal_stage_claim_cex :
    Advance 0
      { now := 5, startNano := 6, launchResult := Except.ok "t", checkResult := Except.ok true }
      { id := "j1", type := JobType.TestSmoke, stage := JobStage.Completed, ts := 0,
        params := [] } =
      some ({ id := "j1", type := JobType.TestSmoke, stage := JobStage.Failed, ts := 5,
              params := [(JobParam_Error, ParamVal.err GoError.unexpectedState)] },
        some GoError.unexpectedState) ∧
    JobStage.Failed ≠ JobStage.Completed :=
  ⟨rfl, by decide⟩

/-- C1 (amended): calling `Advance` on a terminal-stage state (Failed,
Canceled, or Completed) takes the defensive default branch: the result has
Stage Failed, Ts set to the invocation time, and a synthesized
unexpected-state error recorded in Params and returned.  In particular a
Failed job keeps Stage Failed under repetition, but a Canceled or Completed
job's Stage changes to Failed, and Ts and Params change on every call. -/
theorem terminal_stage_defensive_failed (dwt : Int) (env : AdvanceEnv) (state : JobState)
    (h : state.stage = JobStage.Failed ∨ state.stage = JobStage.Canceled ∨
      state.stage = JobStage.Completed) :
    Advance dwt env state =
      some ({ state with
          stage := JobStage.Failed
          ts := env.now
          params := paramsSet state.params JobParam_Error
            (ParamVal.err GoError.unexpectedState) },
        some GoError.unexpectedState) := by
  unfold Advance
  rcases h with h | h | h <;> rw [h] <;> rfl

/-- Witness for C1's amended theorem at a concrete Canceled state. -/
theorem terminal_stage_defensive_failed_witness :
    Advance 0
      { now := 7, startNano := 8, launchResult := Except.ok "t", checkResult := Except.ok true }
      { id := "j2", type := JobType.TestSmoke, stage := JobStage.Canceled, ts := 1,
        params := [] } =
      some ({ id := "j2", type := JobType.TestSmoke, stage := JobStage.Failed, ts := 7,
              params := [(JobParam_Error, ParamVal.err GoError.unexpectedState)] },
        some GoError.unexpectedState) :=
  terminal_stage_defensive_failed 0
    { now := 7, startNano := 8, launchResult := Except.ok "t", checkResult := Except.ok true }
    { id := "j2", type := JobType.TestSmoke, stage := JobStage.Canceled, ts := 1, params := [] }
    (Or.inr (Or.inl rfl))

/-- C4: a Queued job is advanced to Dequeued with its Ts preserved exactly
(the state is otherwise untouched and no error is produced), and every other
branch of `Advance` either returns the input state unchanged or stamps the
result with the invocation time `env.now`. -/
theorem advance_queued_preserves_ts (dwt : Int) (env : AdvanceEnv) (state : JobState) :
    (state.stage = JobStage.Queued →
      Advance dwt env state = some ({ state with stage := JobStage.Dequeued }, none)) ∧
    (state.stage ≠ JobStage.Queued → ∀ out, Advance dwt env state = some out →
      out.fst = state ∨ out.fst.ts = env.now) := by
  obtain ⟨i, ty, st, ts, ps⟩ := state
  constructor
  · intro h
    dsimp only at h
    subst h
    rfl
  · intro hne out h
    dsimp only at hne
    unfold Advance at h
    dsimp only at h
    cases st with
    | Queued => exact absurd rfl hne
    | Dequeued =>
        cases hl : env.launchResult with
        | error e => rw [hl] at h; dsimp only at h; injection h with h; subst h; right; rfl
        | ok tid => rw [hl] at h; dsimp only at h; injection h with h; subst h; right; rfl
    | Started =>
        cases hc : checkTests ⟨i, ty, JobStage.Started, ts, ps⟩ env.checkResult true dwt env.now with
        | none => rw [hc] at h; dsimp only at h; cases h
        | some r =>
            obtain ⟨b, oe⟩ := r
            cases b <;> cases oe <;>
              (rw [hc] at h; dsimp only at h; injection h with h; subst h) <;>
              first
                | (left; rfl)
                | (right; rfl)
    | Waiting =>
        cases hc : checkTests ⟨i, ty, JobStage.Waiting, ts, ps⟩ env.checkResult false dwt env.now with
        | none => rw [hc] at h; dsimp only at h; cases h
        | some r =>
            obtain ⟨b, oe⟩ := r
            cases b <;> cases oe <;>
              (rw [hc] at h; dsimp only at h; injection h with h; subst h) <;>
              first
                | (left; rfl)
                | (right; rfl)
    | Skipped => injection h with h; subst h; right; rfl
    | Delayed => injection h with h; subst h; right; rfl
    | Failed => injection h with h; subst h; right; rfl
    | Canceled => injection h with h; subst h; right; rfl
    | Completed => injection h with h; subst h; right; rfl

/-- Witness for C4 at a concrete Queued state (Ts preserved) and a concrete
Dequeued state (Ts stamped with the invocation time). -/
theorem advance_queued_preserves_ts_witness :
    Advance 0
      { now := 9, startNano := 10, launchResult := Except.ok "t", checkResult := Except.ok true }
      { id := "j3", type := JobType.TestSmoke, stage := JobStage.Queued, ts := 4, params := [] } =
      some ({ id := "j3", type := JobType.TestSmoke, stage := JobStage.Dequeued, ts := 4,
              params := [] }, none) ∧
    (({ id := "j3", type := JobType.TestSmoke, stage := JobStage.Started, ts := 9,
        params := [(JobParam_Id, ParamVal.str "t"), (JobParam_Start, ParamVal.int 10)] } :
          JobState) =
        { id := "j3", type := JobType.TestSmoke, stage := JobStage.Dequeued, ts := 4,
          params := [] } ∨
      ({ id := "j3", type := JobType.TestSmoke, stage := JobStage.Started, ts := 9,
         params := [(JobParam_Id, ParamVal.str "t"), (JobParam_Start, ParamVal.int 10)] } :
           JobState).ts = 9) :=
  ⟨(advance_queued_preserves_ts 0
      { now := 9, startNano := 10, launchResult := Except.ok "t", checkResult := Except.ok true }
      { id := "j3", type := JobType.TestSmoke, stage := JobStage.Queued, ts := 4,
        params := [] }).1 rfl,
   (advance_queued_preserves_ts 0
      { now := 9, startNano := 10, launchResult := Except.ok "t", checkResult := Except.ok true }
      { id := "j3", type := JobType.TestSmoke, stage := JobStage.Dequeued, ts := 4,
        params := [] }).2 (by decide)
      ({ id := "j3", type := JobType.TestSmoke, stage := JobStage.Started, ts := 9,
         params := [(JobParam_Id, ParamVal.str "t"), (JobParam_Start, ParamVal.int 10)] }, none)
      rfl⟩

/-- C2: when the backend check reports "does not match expectation" without
error and the stage has not outlived its timeout — measured from the state's
own Ts — `Advance` returns the input state unchanged with a nil error: in
Stage Started against the startup timeout, in Stage Waiting against the
15-minute completion timeout.  (The spawned-task id must be present in
Params, else the type assertion inside `checkTests` panics before the check
reports anything.) -/
theorem advance_pending_unchanged (dwt : Int) (env : AdvanceEnv) (state : JobState)
    (tid : String) (hid : paramsGetString state.params JobParam_Id = some tid)
    (hchk : env.checkResult = Except.ok false) :
    (state.stage = JobStage.Started → env.now - state.ts ≤ dwt →
      Advance dwt env state = some (state, none)) ∧
    (state.stage = JobStage.Waiting → env.now - state.ts ≤ smokeTestFailureTime →
      Advance dwt env state = some (state, none)) := by
  constructor
  · intro hst ht
    have hto : IsTimedOut state dwt env.now = false := decide_eq_false (by omega)
    unfold Advance
    rw [hst]
    dsimp only
    unfold checkTests
    rw [hid, hchk]
    simp [hto]
  · intro hst ht
    have hto : IsTimedOut state smokeTestFailureTime env.now = false :=
      decide_eq_false (by omega)
    unfold Advance
    rw [hst]
    dsimp only
    unfold checkTests
    rw [hid, hchk]
    simp [hto]

/-- Witness for C2 at a concrete Started state within the startup timeout. -/
theorem advance_pending_unchanged_witness :
    Advance 10
      { now := 5, startNano := 0, launchResult := Except.ok "x", checkResult := Except.ok false }
      { id := "j4", type := JobType.TestSmoke, stage := JobStage.Started, ts := 0,
        params := [(JobParam_Id, ParamVal.str "t")] } =
      some ({ id := "j4", type := JobType.TestSmoke, stage := JobStage.Started, ts := 0,
              params := [(JobParam_Id, ParamVal.str "t")] }, none) :=
  (advance_pending_unchanged 10
      { now := 5, startNano := 0, launchResult := Except.ok "x", checkResult := Except.ok false }
      { id := "j4", type := JobType.TestSmoke, stage := JobStage.Started, ts := 0,
        params := [(JobParam_Id, ParamVal.str "t")] }
      "t" rfl rfl).1 rfl (by decide)

/-- C3: when the backend check reports "does not match expectation" without
error and the stage has outlived its timeout — elapsed measured from the Ts of
the current stage — `Advance` transitions to Failed carrying the locally
synthesized error: StartupTimeout for Started past the startup timeout,
CompletionTimeout for Waiting past the 15-minute completion timeout. -/
theorem advance_timeout_failed (dwt : Int) (env : AdvanceEnv) (state : JobState)
    (tid : String) (hid : paramsGetString state.params JobParam_Id = some tid)
    (hchk : env.checkResult = Except.ok false) :
    (state.stage = JobStage.Started → env.now - state.ts > dwt →
      Advance dwt env state =
        some ({ state with
                  stage := JobStage.Failed
                  ts := env.now
                  params := paramsSet state.params JobParam_Error
                    (ParamVal.err GoError.startupTimeout) },
          some GoError.startupTimeout)) ∧
    (state.stage = JobStage.Waiting → env.now - state.ts > smokeTestFailureTime →
      Advance dwt env state =
        some ({ state with
                  stage := JobStage.Failed
                  ts := env.now
                  params := paramsSet state.params JobParam_Error
                    (ParamVal.err GoError.completionTimeout) },
          some GoError.completionTimeout)) := by
  constructor
  · intro hst ht
    have hto : IsTimedOut state dwt env.now = true := decide_eq_true ht
    unfold Advance
    rw [hst]
    dsimp only
    unfold checkTests
    rw [hid, hchk]
    simp [hto, advanceStep]
  · intro hst ht
    have hto : IsTimedOut state smokeTestFailureTime env.now = true := decide_eq_true ht
    unfold Advance
    rw [hst]
    dsimp only
    unfold checkTests
    rw [hid, hchk]
    simp [hto, advanceStep]

/-- Witness for C3 at a concrete Started state past the startup timeout. -/
theorem advance_timeout_failed_witness :
    Advance 10
      { now := 20, startNano := 0, launchResult := Except.ok "x", checkResult := Except.ok false }
      { id := "j5", type := JobType.TestSmoke, stage := JobStage.Started, ts := 0,
        params := [(JobParam_Id, ParamVal.str "t")] } =
      some ({ id := "j5", type := JobType.TestSmoke, stage := JobStage.Failed, ts := 20,
              params := paramsSet [(JobParam_Id, ParamVal.str "t")] JobParam_Error
                (ParamVal.err GoError.startupTimeout) },
        some GoError.startupTimeout) :=
  (advance_timeout_failed 10
      { now := 20, startNano := 0, launchResult := Except.ok "x", checkResult := Except.ok false }
      { id := "j5", type := JobType.TestSmoke, stage := JobStage.Started, ts := 0,
        params := [(JobParam_Id, ParamVal.str "t")] }
      "t" rfl rfl).1 rfl (by decide)

/-- C5: an error from the external call made by the stage handler —
`LaunchTask` in Dequeued, `CheckTask` in Started or Waiting — makes `Advance`
transition straight to Failed carrying that same error (the single external
call per invocation is consulted once; there is no in-invocation retry). -/
theorem advance_external_error_failed (dwt : Int) (env : AdvanceEnv) (state : JobState)
    (e : GoError) (tid : String) :
    (state.stage = JobStage.Dequeued → env.launchResult = Except.error e →
      Advance dwt env state =
        some ({ state with
                  stage := JobStage.Failed
                  ts := env.now
                  params := paramsSet state.params JobParam_Error (ParamVal.err e) },
          some e)) ∧
    (state.stage = JobStage.Started → paramsGetString state.params JobParam_Id = some tid →
      env.checkResult = Except.error e →
      Advance dwt env state =
        some ({ state with
                  stage := JobStage.Failed
                  ts := env.now
                  params := paramsSet state.params JobParam_Error (ParamVal.err e) },
          some e)) ∧
    (state.stage = JobStage.Waiting → paramsGetString state.params JobParam_Id = some tid →
      env.checkResult = Except.error e →
      Advance dwt env state =
        some ({ state with
                  stage := JobStage.Failed
                  ts := env.now
                  params := paramsSet state.params JobParam_Error (ParamVal.err e) },
          some e)) := by
  refine ⟨?_, ?_, ?_⟩
  · intro hst hl
    unfold Advance
    rw [hst, hl]
    rfl
  · intro hst hid hchk
    unfold Advance
    rw [hst]
    dsimp only
    unfold checkTests
    rw [hid, hchk]
    rfl
  · intro hst hid hchk
    unfold Advance
    rw [hst]
    dsimp only
    unfold checkTests
    rw [hid, hchk]
    rfl

/-- Witness for C5 at a concrete Dequeued state whose launch call fails. -/
theorem advance_external_error_failed_witness :
    Advance 0
      { now := 3, startNano := 0, launchResult := Except.error (GoError.external "boom"),
        checkResult := Except.ok true }
      { id := "j6", type := JobType.TestSmoke, stage := JobStage.Dequeued, ts := 1,
        params := [] } =
      some ({ id := "j6", type := JobType.TestSmoke, stage := JobStage.Failed, ts := 3,
              params := paramsSet [] JobParam_Error (ParamVal.err (GoError.external "boom")) },
        some (GoError.external "boom")) :=
  (advance_external_error_failed 0
      { now := 3, startNano := 0, launchResult := Except.error (GoError.external "boom"),
        checkResult := Except.ok true }
      { id := "j6", type := JobType.TestSmoke, stage := JobStage.Dequeued, ts := 1,
        params := [] }
      (GoError.external "boom") "t").1 rfl rfl

/-- C6: a Dequeued job whose launch succeeds with task id `tid` records the
task id and the subtask start time in Params and moves to Started with Ts set
to the invocation time; the recorded params read back as exactly the task id
and the start time. -/
theorem advance_dequeued_launch_ok (dwt : Int) (env : AdvanceEnv) (state : JobState)
    (tid : String) (hst : state.stage = JobStage.Dequeued)
    (hl : env.launchResult = Except.ok tid) :
    Advance dwt env state =
      some ({ state with
                stage := JobStage.Started
                ts := env.now
                params := paramsSet (paramsSet state.params JobParam_Id (ParamVal.str tid))
                  JobParam_Start (ParamVal.int env.startNano) }, none) ∧
    paramsGet (paramsSet (paramsSet state.params JobParam_Id (ParamVal.str tid))
      JobParam_Start (ParamVal.int env.startNano)) JobParam_Id = some (ParamVal.str tid) ∧
    paramsGet (paramsSet (paramsSet state.params JobParam_Id (ParamVal.str tid))
      JobParam_Start (ParamVal.int env.startNano)) JobParam_Start =
      some (ParamVal.int env.startNano) := by
  refine ⟨?_, ?_, ?_⟩
  · unfold Advance
    rw [hst, hl]
    rfl
  · rw [paramsGet_paramsSet_ne _ _ _ _ (by decide)]
    exact paramsGet_paramsSet_self _ _ _
  · exact paramsGet_paramsSet_self _ _ _

/-- Witness for C6 at a concrete Dequeued state with task id "task-123". -/
theorem advance_dequeued_launch_ok_witness :
    Advance 0
      { now := 11, startNano := 12, launchResult := Except.ok "task-123",
        checkResult := Except.ok true }
      { id := "j7", type := JobType.TestSmoke, stage := JobStage.Dequeued, ts := 2,
        params := [] } =
      some ({ id := "j7", type := JobType.TestSmoke, stage := JobStage.Started, ts := 11,
              params := paramsSet (paramsSet [] JobParam_Id (ParamVal.str "task-123"))
                JobParam_Start (ParamVal.int 12) }, none) ∧
    paramsGet (paramsSet (paramsSet [] JobParam_Id (ParamVal.str "task-123"))
      JobParam_Start (ParamVal.int 12)) JobParam_Id = some (ParamVal.str "task-123") ∧
    paramsGet (paramsSet (paramsSet [] JobParam_Id (ParamVal.str "task-123"))
      JobParam_Start (ParamVal.int 12)) JobParam_Start = some (ParamVal.int 12) :=
  advance_dequeued_launch_ok 0
    { now := 11, startNano := 12, launchResult := Except.ok "task-123",
      checkResult := Except.ok true }
    { id := "j7", type := JobType.TestSmoke, stage := JobStage.Dequeued, ts := 2,
      params := [] }
    "task-123" rfl rfl

/-- C7: a Waiting job whose backend check reports the task stopped (match of
the not-running expectation) without error moves to Completed. -/
theorem advance_waiting_stopped_completed (dwt : Int) (env : AdvanceEnv) (state : JobState)
    (tid : String) (hst : state.stage = JobStage.Waiting)
    (hid : paramsGetString state.params JobParam_Id = some tid)
    (hchk : env.checkResult = Except.ok true) :
    Advance dwt env state =
      some ({ state with stage := JobStage.Completed, ts := env.now }, none) := by
  unfold Advance
  rw [hst]
  dsimp only
  unfold checkTests
  rw [hid, hchk]
  rfl

/-- Witness for C7 at a concrete Waiting state reported stopped. -/
theorem advance_waiting_stopped_completed_witness :
    Advance 0
      { now := 13, startNano := 0, launchResult := Except.ok "x", checkResult := Except.ok true }
      { id := "j8", type := JobType.TestSmoke, stage := JobStage.Waiting, ts := 4,
        params := [(JobParam_Id, ParamVal.str "t")] } =
      some ({ id := "j8", type := JobType.TestSmoke, stage := JobStage.Completed, ts := 13,
              params := [(JobParam_Id, ParamVal.str "t")] }, none) :=
  advance_waiting_stopped_completed 0
    { now := 13, startNano := 0, launchResult := Except.ok "x", checkResult := Except.ok true }
    { id := "j8", type := JobType.TestSmoke, stage := JobStage.Waiting, ts := 4,
      params := [(JobParam_Id, ParamVal.str "t")] }
    "t" rfl rfl rfl

/-- C8 (counterexample): with a negative threshold the predicate is true even
though the elapsed time is negative — `IsTimedOut` at Ts 10, now 5 (elapsed
-5) and threshold -7 returns true — refuting "false whenever the elapsed time
now - state.Ts is negative" as stated for every duration. -/
theorem isTimedOut_negative_elapsed_cex :
    IsTimedOut
      { id := "j9", type := JobType.TestSmoke, stage := JobStage.Started, ts := 10,
        params := [] } (-7) 5 = true ∧
    (5 : Int) - 10 < 0 := by
  constructor
  · rfl
  · decide

/-- C8 (amended): `IsTimedOut` is the pure comparison (now - Ts) > threshold;
it is monotonic — true at duration d implies true at every d' < d — and it is
false for negative elapsed time whenever the threshold is nonnegative (as the
job's two timeout constants are). -/
theorem isTimedOut_props (state : JobState) (d d' now : Int) :
    (IsTimedOut state d now = decide (now - state.ts > d)) ∧
    (d' < d → IsTimedOut state d now = true → IsTimedOut state d' now = true) ∧
    (now - state.ts < 0 → 0 ≤ d → IsTimedOut state d now = false) := by
  refine ⟨rfl, ?_, ?_⟩
  · intro hlt h
    have hgt : now - state.ts > d := of_decide_eq_true h
    exact decide_eq_true (by omega)
  · intro hneg hd
    exact decide_eq_false (by omega)

/-- Witness for C8's amended theorem: monotonicity at thresholds 50 and 30
with elapsed 100, and falsity at negative elapsed with threshold 5. -/
theorem isTimedOut_props_witness :
    IsTimedOut
      { id := "j10", type := JobType.TestSmoke, stage := JobStage.Started, ts := 0,
        params := [] } 30 100 = true ∧
    IsTimedOut
      { id := "j10", type := JobType.TestSmoke, stage := JobStage.Started, ts := 50,
        params := [] } 5 40 = false :=
  ⟨(isTimedOut_props
      { id := "j10", type := JobType.TestSmoke, stage := JobStage.Started, ts := 0,
        params := [] } 50 30 100).2.1 (by decide) rfl,
   (isTimedOut_props
      { id := "j10", type := JobType.TestSmoke, stage := JobStage.Started, ts := 50,
        params := [] } 5 0 40).2.2 (by decide) (by decide)⟩

/-- C9: the per-type active-jobs field built from `JobsByMatcher` lists
exactly the registered jobs that are active and of the queried type minus the
job the notification is about — no extras, no omissions — with no duplicate
Ids (the registry is keyed by Id), and the field's message is precisely the
concatenated lines of those jobs. -/
theorem active_jobs_field_exact (registry : List JobState) (self : JobState) (t : JobType)
    (js : JobState) (hnd : (registry.map JobState.id).Nodup) :
    (js ∈ activeJobsListed registry self t ↔
      js ∈ registry ∧ IsActiveJob js = true ∧ js.type = t ∧ js.id ≠ self.id) ∧
    ((activeJobsListed registry self t).map JobState.id).Nodup ∧
    (getActiveJobsByType registry self t).fst.snd =
      linesMsg (activeJobsListed registry self t) := by
  refine ⟨?_, ?_, ?_⟩
  · simp only [activeJobsListed, JobsByMatcher, List.mem_filter, Bool.and_eq_true,
      beq_iff_eq, bne_iff_ne, ne_eq]
    tauto
  · exact hnd.sublist
      (((List.filter_sublist _).trans (List.filter_sublist _)).map JobState.id)
  · have hf := foldl_lines_eq (fun js0 => js0.id != self.id)
      (JobsByMatcher registry (fun js0 => IsActiveJob js0 && js0.type == t)) ""
    simp only [getActiveJobsByType, activeJobsListed]
    rw [hf, String.empty_append]

/-- Witness for C9 on a concrete three-job registry: the Waiting smoke-test
job other than `self` is listed, `self` is excluded, and the message is its
single line. -/
theorem active_jobs_field_exact_witness :
    ({ id := "b", type := JobType.TestSmoke, stage := JobStage.Waiting, ts := 0,
       params := [] } : JobState) ∈
      activeJobsListed
        [{ id := "a", type := JobType.TestSmoke, stage := JobStage.Started, ts := 0,
           params := [] },
         { id := "b", type := JobType.TestSmoke, stage := JobStage.Waiting, ts := 0,
           params := [] },
         { id := "c", type := JobType.TestSmoke, stage := JobStage.Completed, ts := 0,
           params := [] }]
        { id := "a", type := JobType.TestSmoke, stage := JobStage.Started, ts := 0,
          params := [] }
        JobType.TestSmoke ↔
      (({ id := "b", type := JobType.TestSmoke, stage := JobStage.Waiting, ts := 0,
          params := [] } : JobState) ∈
        [{ id := "a", type := JobType.TestSmoke, stage := JobStage.Started, ts := 0,
           params := [] },
         { id := "b", type := JobType.TestSmoke, stage := JobStage.Waiting, ts := 0,
           params := [] },
         { id := "c", type := JobType.TestSmoke, stage := JobStage.Completed, ts := 0,
           params := [] }] ∧
        IsActiveJob
          { id := "b", type := JobType.TestSmoke, stage := JobStage.Waiting, ts := 0,
            params := [] } = true ∧
        JobType.TestSmoke = JobType.TestSmoke ∧ "b" ≠ "a") :=
  (active_jobs_field_exact
    [{ id := "a", type := JobType.TestSmoke, stage := JobStage.Started, ts := 0,
       params := [] },
     { id := "b", type := JobType.TestSmoke, stage := JobStage.Waiting, ts := 0,
       params := [] },
     { id := "c", type := JobType.TestSmoke, stage := JobStage.Completed, ts := 0,
       params := [] }]
    { id := "a", type := JobType.TestSmoke, stage := JobStage.Started, ts := 0,
      params := [] }
    JobType.TestSmoke
    { id := "b", type := JobType.TestSmoke, stage := JobStage.Waiting, ts := 0,
      params := [] }
    (by decide)).1

/-- C10: `getComponentMsg` slices the hash as `sha take 12` inside the
markdown link and the Go slice panics (modelled by `none`) exactly when the
hash has fewer than 12 characters; consequently, when `GetDeployHashes`
succeeds but any of the three components maps to a hash shorter than 12
characters — including the empty string standing for an absent component —
the notification path panics instead of producing a message. -/
theorem short_sha_panics (isValidSha : String → Bool) (h : String → String)
    (jobState : JobState) (component sha : String) :
    (sha.length < 12 → getComponentMsg component sha = none) ∧
    (12 ≤ sha.length → getComponentMsg component sha =
      some ("[" ++ componentRepo component ++ " (" ++ sha.take 12 ++
        ")](https://github.com/" ++ gitHubOrg ++ "/" ++ componentRepo component ++
        "/commit/" ++ sha ++ ")")) ∧
    (jobState.type ≠ JobType.Deploy →
      ((h DeployComponent_Ceramic).length < 12 ∨ (h DeployComponent_Cas).length < 12 ∨
        (h DeployComponent_Ipfs).length < 12) →
      getDeployHashes isValidSha (Except.ok h) jobState = none) := by
  refine ⟨?_, ?_, ?_⟩
  · intro hlen
    simp [getComponentMsg, Nat.not_le.mpr hlen]
  · intro hlen
    simp [getComponentMsg, hlen]
  · intro hty hshort
    have hnone : getComponentMsg DeployComponent_Ceramic (h DeployComponent_Ceramic) = none ∨
        getComponentMsg DeployComponent_Cas (h DeployComponent_Cas) = none ∨
        getComponentMsg DeployComponent_Ipfs (h DeployComponent_Ipfs) = none := by
      rcases hshort with hs | hs | hs
      · exact Or.inl (by simp [getComponentMsg, Nat.not_le.mpr hs])
      · exact Or.inr (Or.inl (by simp [getComponentMsg, Nat.not_le.mpr hs]))
      · exact Or.inr (Or.inr (by simp [getComponentMsg, Nat.not_le.mpr hs]))
    unfold getDeployHashes
    dsimp only
    rw [if_neg hty]
    dsimp only
    rcases h1 : getComponentMsg DeployComponent_Ceramic (h DeployComponent_Ceramic) with _ | m1 <;>
      rcases h2 : getComponentMsg DeployComponent_Cas (h DeployComponent_Cas) with _ | m2 <;>
        rcases h3 : getComponentMsg DeployComponent_Ipfs (h DeployComponent_Ipfs) with _ | m3 <;>
          simp_all

/-- Witness for C10: the empty hash makes the component message panic, and a
hash map with all components absent makes `getDeployHashes` panic for a
non-deploy job. -/
theorem short_sha_panics_witness :
    getComponentMsg DeployComponent_Ceramic "" = none ∧
    getDeployHashes (fun _ => false) (Except.ok (fun _ => ""))
      { id := "j11", type := JobType.TestSmoke, stage := JobStage.Completed, ts := 0,
        params := [] } = none :=
  ⟨(short_sha_panics (fun _ => false) (fun _ => "")
      { id := "j11", type := JobType.TestSmoke, stage := JobStage.Completed, ts := 0,
        params := [] }
      DeployComponent_Ceramic "").1 (by decide),
   (short_sha_panics (fun _ => false) (fun _ => "")
      { id := "j11", type := JobType.TestSmoke, stage := JobStage.Completed, ts := 0,
        params := [] }
      DeployComponent_Ceramic "").2.2 (by decide) (Or.inl (by decide))⟩

end PipelineTools
